import Mathlib

/-!
Shallow embedding of the process-lifecycle supervisor of the Contextible
desktop shell (src/contextvault-app/src-tauri/src/main.rs).

The Rust code keeps one shared AppState holding an optional child-process
handle and a ContextVaultStatus record, and exposes start / stop /
health-check operations plus stateless HTTP forwarding commands.  Here the
external world (filesystem, process spawning, the network) is passed in as
explicit oracle parameters, and each operation is a pure function returning
the new state together with its result; a Bool component records whether a
network call or a kill request was issued.
-/

/-- Mirror of struct ContextVaultStatus (main.rs lines 13-21). -/
structure ContextVaultStatus where
  running : Bool
  port : Option Nat
  ollama_detected : Bool
  ollama_port : Option Nat
  context_entries : Nat
  last_error : Option String
deriving Repr, DecidableEq

/-- Mirror of struct AppState (main.rs lines 23-26).  The child-process
handle std::process::Child is modelled as an opaque numeric identifier. -/
structure AppState where
  server_process : Option Nat
  status : ContextVaultStatus
deriving Repr, DecidableEq

/-- Mirror of impl Default for AppState (main.rs lines 28-42). -/
def AppState.default : AppState :=
  { server_process := none
    status :=
      { running := false
        port := none
        ollama_detected := false
        ollama_port := none
        context_entries := 0
        last_error := none } }

/-- An HTTP response as the supervisor observes it: whether the status code
is a success, and the displayed status text used in error messages. -/
structure HttpResponse where
  statusSuccess : Bool
  statusText : String
deriving Repr, DecidableEq

/-- Outcome of one reqwest::get call: connection error, or a response. -/
abbrev ProbeResult := Except String HttpResponse

/-- True when a probe outcome is a failure in the sense of
get_server_status: a connection error, or a non-success status code. -/
def probeFails : ProbeResult → Bool
  | .ok response => !response.statusSuccess
  | .error _ => true

/-- Mirror of get_server_status (main.rs lines 158-183), the health check.
The probe oracle maps a port to the outcome of the GET to
http://localhost:{port}/api/health.  Returns (new state, returned status
snapshot, whether a network call was issued).  The Rust function only reads
the shared state, so the returned state is the input state; the downgraded
snapshot is built from a clone. -/
def get_server_status (state : AppState) (probe : Nat → ProbeResult) :
    AppState × ContextVaultStatus × Bool :=
  if state.status.running then
    match state.status.port with
    | some port =>
      match probe port with
      | .ok response =>
        if response.statusSuccess then
          (state, state.status, true)
        else
          (state,
           { state.status with
               running := false
               last_error := some "Server not responding" }, true)
      | .error _ =>
        (state,
         { state.status with
             running := false
             last_error := some "Server not responding" }, true)
    | none =>
      (state,
       { state.status with
           running := false
           last_error := some "Server not responding" }, false)
  else
    (state, state.status, false)

/-- Mirror of stop_contextvault_server (main.rs lines 141-156).  The
killResult oracle is the outcome of process.kill() on the tracked child.
Returns (new state, whether a kill request was issued, command result).
Note the Rust take() removes the handle from the state before kill() is
attempted, and the status fields are overwritten unconditionally on the
non-error path, child tracked or not. -/
def stop_contextvault_server (state : AppState)
    (killResult : Except String Unit) :
    AppState × Bool × Except String ContextVaultStatus :=
  match state.server_process with
  | some _ =>
    match killResult with
    | .error e =>
      ({ state with server_process := none }, true,
       .error ("Failed to stop server: " ++ e))
    | .ok _ =>
      let status :=
        { state.status with
            running := false
            port := none
            last_error := some "Server stopped" }
      ({ server_process := none, status := status }, true, .ok status)
  | none =>
    let status :=
      { state.status with
          running := false
          port := none
          last_error := some "Server stopped" }
    ({ state with status := status }, false, .ok status)

/-- Environment of one start attempt: the result of
get_contextvault_server_path (main.rs lines 334-346), the filesystem
existence test, the outcome of Command::spawn, and the outcome of
process.try_wait after the 3-second settling sleep (Ok (some s) means the
child already exited with displayed status s, Ok none means it is still
running). -/
structure StartEnv where
  resolvedPath : Except String String
  pathExists : String → Bool
  spawnResult : Except String Nat
  settledExit : Except String (Option String)

/-- Mirror of start_contextvault_server_internal (main.rs lines 289-332).
Returns (new state, result).  Every failure path returns before the state
update at lines 324-329, so the state is untouched on failure. -/
def start_contextvault_server_internal (env : StartEnv) (state : AppState) :
    AppState × Except String ContextVaultStatus :=
  match env.resolvedPath with
  | .error e => (state, .error e)
  | .ok contextvault_path =>
    if env.pathExists contextvault_path then
      match env.spawnResult with
      | .error e => (state, .error e)
      | .ok child =>
        match env.settledExit with
        | .ok (some exitStatus) =>
          (state, .error ("Server process exited with status: " ++ exitStatus))
        | .error e =>
          (state, .error ("Error checking process status: " ++ e))
        | .ok none =>
          let status :=
            { state.status with
                running := true
                port := some 8000
                last_error := none }
          ({ server_process := some child, status := status }, .ok status)
    else
      (state, .error ("ContextVault server not found at: " ++ contextvault_path))

/-- Shallow model of serde_json::Value.  Numbers are modelled as integers;
no forwarding claim depends on non-integer numerics. -/
inductive Json where
  | null : Json
  | bool : Bool → Json
  | num : Int → Json
  | str : String → Json
  | arr : List Json → Json
  | obj : List (String × Json) → Json
deriving Repr

/-- Mirror of serde_json::Value::get on an object: field lookup. -/
def Json.get (j : Json) (key : String) : Option Json :=
  match j with
  | .obj fields => fields.lookup key
  | _ => none

/-- Mirror of serde_json::Value::as_array. -/
def Json.as_array : Json → Option (List Json)
  | .arr xs => some xs
  | _ => none

/-- A forwarded HTTP response as the forwarding layer observes it: success
flag and displayed text of the status code, and the outcomes of decoding
the body as JSON (response.json()) and as raw text (response.text()). -/
structure ForwardResponse where
  statusSuccess : Bool
  statusText : String
  jsonBody : Except String Json
  textBody : Except String String

/-- Mirror of get_context_entries (main.rs lines 194-216).  The net oracle
is the outcome of reqwest::get("http://localhost:8000/api/context").  On a
success status the body is decoded and the "entries" field, when it is an
array, is returned; otherwise an empty vector is returned. -/
def get_context_entries (net : Except String ForwardResponse) :
    Except String (List Json) :=
  match net with
  | .error e => .error ("Failed to connect to ContextVault server: " ++ e)
  | .ok response =>
    if response.statusSuccess then
      match response.jsonBody with
      | .ok data =>
        match (data.get "entries").bind Json.as_array with
        | some entries => .ok entries
        | none => .ok []
      | .error e => .error ("Failed to parse response: " ++ e)
    else
      .error ("Server returned status: " ++ response.statusText)

/-- Mirror of add_context_entry (main.rs lines 218-244).  The request body
built from (content, context_type, tags) only shapes the outbound call, so
the model takes the response oracle directly; on a success status the raw
response text is passed through. -/
def add_context_entry (net : Except String ForwardResponse) :
    Except String String :=
  match net with
  | .error e => .error ("Failed to add context entry: " ++ e)
  | .ok response =>
    if response.statusSuccess then
      match response.textBody with
      | .ok body => .ok body
      | .error e => .error ("Failed to read response: " ++ e)
    else
      .error ("Server returned status: " ++ response.statusText)

/-- Mirror of delete_context_entry (main.rs lines 246-266).  The entry id
only shapes the request URL; response handling is as for add. -/
def delete_context_entry (net : Except String ForwardResponse) :
    Except String String :=
  match net with
  | .error e => .error ("Failed to delete context entry: " ++ e)
  | .ok response =>
    if response.statusSuccess then
      match response.textBody with
      | .ok body => .ok body
      | .error e => .error ("Failed to read response: " ++ e)
    else
      .error ("Server returned status: " ++ response.statusText)

/-- An environment in which a start attempt fully succeeds: path resolved,
binary present, spawn yields child 1, child still running after settling. -/
def goodEnv : StartEnv :=
  { resolvedPath := .ok "/app/contextvault-server/contextvault-server"
    pathExists := fun _ => true
    spawnResult := .ok 1
    settledExit := .ok none }

/-- The state stored after a successful start from the default state. -/
def startedState : AppState :=
  (start_contextvault_server_internal goodEnv AppState.default).1

/-- A probe oracle whose every call fails to connect. -/
def refusedProbe : Nat → ProbeResult := fun _ => .error "connection refused"

/-- C1, counterexample: the snapshot returned by a failed health check on a
state stored by a successful start has running = false yet keeps port set
to some 8000, so the claimed iff between port being set and running being
true fails on that snapshot. -/
theorem c1_counterexample :
    (get_server_status startedState refusedProbe).2.1.running = false
    ∧ (get_server_status startedState refusedProbe).2.1.port = some 8000 := by
  decide

/-- C1, amended: status records stored by the supervisor satisfy the
invariant that port is set iff running is true (it holds of the default
record and is preserved by start, stop and the health check, which never
writes the stored record), and the snapshots returned by a successful
start or a successful stop satisfy it as well; only the downgraded
snapshot returned by a failed health check escapes it, keeping the
recorded port while reporting running = false. -/
theorem c1_port_iff_running_stored (s : AppState) (env : StartEnv)
    (killResult : Except String Unit) (probe : Nat → ProbeResult)
    (h : s.status.port.isSome = s.status.running) :
    AppState.default.status.port.isSome = AppState.default.status.running
    ∧ (start_contextvault_server_internal env s).1.status.port.isSome
        = (start_contextvault_server_internal env s).1.status.running
    ∧ (stop_contextvault_server s killResult).1.status.port.isSome
        = (stop_contextvault_server s killResult).1.status.running
    ∧ (get_server_status s probe).1 = s
    ∧ (∀ st, (start_contextvault_server_internal env s).2 = .ok st →
        st.running = true ∧ st.port = some 8000)
    ∧ (∀ st, (stop_contextvault_server s killResult).2.2 = .ok st →
        st.running = false ∧ st.port = none) := by
  refine ⟨rfl, ?_, ?_, ?_, ?_, ?_⟩
  · unfold start_contextvault_server_internal
    repeat' split
    all_goals simp_all
  · unfold stop_contextvault_server
    repeat' split
    all_goals simp_all
  · unfold get_server_status
    repeat' split
    all_goals simp_all
  · intro st hst
    unfold start_contextvault_server_internal at hst
    repeat' split at hst
    all_goals simp_all
    all_goals (subst hst; exact ⟨rfl, rfl⟩)
  · intro st hst
    unfold stop_contextvault_server at hst
    repeat' split at hst
    all_goals simp_all
    all_goals (subst hst; exact ⟨rfl, rfl⟩)

/-- C1, witness: the amended invariant instantiated at the default state
with a fully successful start environment. -/
theorem c1_port_iff_running_stored_witness :
    AppState.default.status.port.isSome = AppState.default.status.running
    ∧ (get_server_status AppState.default refusedProbe).1 = AppState.default :=
  ⟨rfl, (c1_port_iff_running_stored AppState.default goodEnv (Except.ok ())
          refusedProbe rfl).2.2.2.1⟩

/-- C2: on a status with running = true and a recorded port, a probe that
fails to connect or returns a non-success status code makes the health
check return a snapshot with running = false and last_error set to
"Server not responding", and the tracked child handle is untouched. -/
theorem c2_health_fail_downgrades (s : AppState) (probe : Nat → ProbeResult)
    (p : Nat) (hrun : s.status.running = true) (hport : s.status.port = some p)
    (hfail : probeFails (probe p) = true) :
    (get_server_status s probe).2.1.running = false
    ∧ (get_server_status s probe).2.1.last_error = some "Server not responding"
    ∧ (get_server_status s probe).1.server_process = s.server_process := by
  cases hpr : probe p with
  | error e =>
    unfold get_server_status
    simp [hrun, hport, hpr]
  | ok response =>
    rw [hpr] at hfail
    simp only [probeFails, Bool.not_eq_true'] at hfail
    unfold get_server_status
    simp [hrun, hport, hpr, hfail]

/-- C2, witness: the downgrade at the state stored by a successful start,
with a probe that is refused on port 8000. -/
theorem c2_health_fail_downgrades_witness :
    (startedState.status.running = true ∧ startedState.status.port = some 8000
      ∧ probeFails (refusedProbe 8000) = true)
    ∧ (get_server_status startedState refusedProbe).2.1.running = false :=
  ⟨⟨rfl, rfl, rfl⟩,
   (c2_health_fail_downgrades startedState refusedProbe 8000 rfl rfl rfl).1⟩

/-- C3, counterexample: stop on the default state (no child tracked)
reports a status whose last_error field is some "Server stopped", while
before the call it was none, so the reported status does not equal the
prior status field for field. -/
theorem c3_counterexample :
    AppState.default.server_process = none
    ∧ (stop_contextvault_server AppState.default (Except.ok ())).2.2
        = Except.ok { AppState.default.status with
                        last_error := some "Server stopped" }
    ∧ some "Server stopped" ≠ AppState.default.status.last_error := by
  refine ⟨rfl, rfl, ?_⟩
  decide

/-- C3, amended: when no child is tracked, stop issues no kill request and
succeeds, but it is not a pure no-op on the Status Record: it still
overwrites it with running = false, port = none and last_error =
"Server stopped", and reports that overwritten record (which equals the
prior record only when those were already its values). -/
theorem c3_stop_no_child (s : AppState) (killResult : Except String Unit)
    (h : s.server_process = none) :
    stop_contextvault_server s killResult
      = ({ s with status := { s.status with
                                running := false
                                port := none
                                last_error := some "Server stopped" } }, false,
         Except.ok { s.status with
                       running := false
                       port := none
                       last_error := some "Server stopped" }) := by
  unfold stop_contextvault_server
  rw [h]

/-- C3, witness: the amended stop behaviour at the default state. -/
theorem c3_stop_no_child_witness :
    AppState.default.server_process = none
    ∧ (stop_contextvault_server AppState.default (Except.ok ())).2.1 = false :=
  ⟨rfl, by rw [c3_stop_no_child AppState.default (Except.ok ()) rfl]⟩

/-- C6: on a status with running = false the health check returns the state
and status unchanged and issues no network call. -/
theorem c6_health_noop_when_stopped (s : AppState) (probe : Nat → ProbeResult)
    (h : s.status.running = false) :
    get_server_status s probe = (s, s.status, false) := by
  unfold get_server_status
  rw [h]
  simp

/-- C6, witness: the health check at the default (stopped) state. -/
theorem c6_health_noop_when_stopped_witness :
    AppState.default.status.running = false
    ∧ get_server_status AppState.default refusedProbe
        = (AppState.default, AppState.default.status, false) :=
  ⟨rfl, c6_health_noop_when_stopped AppState.default refusedProbe rfl⟩

/-- An environment in which the path resolves but the binary is missing. -/
def missingEnv : StartEnv :=
  { resolvedPath := .ok "/app/contextvault-server/contextvault-server"
    pathExists := fun _ => false
    spawnResult := .ok 1
    settledExit := .ok none }

/-- C4: when the resolved path does not exist on disk the start attempt
fails with the not-found error, and every failed start attempt leaves the
whole state — Status Record and tracked handle — exactly as it was, so a
failed attempt leaves no handle of its own tracked. -/
theorem c4_start_notfound_frame (env : StartEnv) (s : AppState) (path : String)
    (hres : env.resolvedPath = .ok path) (hex : env.pathExists path = false) :
    (start_contextvault_server_internal env s).2
      = .error ("ContextVault server not found at: " ++ path)
    ∧ (start_contextvault_server_internal env s).1 = s
    ∧ ∀ env2 e, (start_contextvault_server_internal env2 s).2 = .error e →
        (start_contextvault_server_internal env2 s).1 = s := by
  refine ⟨?_, ?_, ?_⟩
  · unfold start_contextvault_server_internal
    simp [hres, hex]
  · unfold start_contextvault_server_internal
    simp [hres, hex]
  · intro env2 e h
    revert h
    unfold start_contextvault_server_internal
    repeat' split
    all_goals intro h
    all_goals first | rfl | simp_all

/-- C4, witness: the not-found failure from the default state with the
binary absent. -/
theorem c4_start_notfound_frame_witness :
    (missingEnv.resolvedPath
        = Except.ok "/app/contextvault-server/contextvault-server"
      ∧ missingEnv.pathExists "/app/contextvault-server/contextvault-server"
          = false)
    ∧ (start_contextvault_server_internal missingEnv AppState.default).1
        = AppState.default :=
  ⟨⟨rfl, rfl⟩,
   (c4_start_notfound_frame missingEnv AppState.default
      "/app/contextvault-server/contextvault-server" rfl rfl).2.1⟩

/-- C5: whenever stop succeeds the status it reports has running = false,
port = none and last_error = "Server stopped"; and after any successful
start, a stop whose kill request succeeds reports exactly the started
status downgraded to those three values. -/
theorem c5_stop_result (s : AppState) (killResult : Except String Unit)
    (st : ContextVaultStatus)
    (h : (stop_contextvault_server s killResult).2.2 = .ok st) :
    (st.running = false ∧ st.port = none
      ∧ st.last_error = some "Server stopped")
    ∧ ∀ env st0, (start_contextvault_server_internal env s).2 = .ok st0 →
        (stop_contextvault_server
            (start_contextvault_server_internal env s).1 (Except.ok ())).2.2
          = .ok { st0 with
                    running := false
                    port := none
                    last_error := some "Server stopped" } := by
  constructor
  · revert h
    unfold stop_contextvault_server
    repeat' split
    all_goals intro h
    all_goals simp_all
    all_goals (subst h; exact ⟨rfl, rfl, rfl⟩)
  · intro env st0 h0
    revert h0
    unfold start_contextvault_server_internal
    repeat' split
    all_goals intro h0
    all_goals simp_all
    subst h0
    unfold stop_contextvault_server
    simp

/-- C5, witness: stop right after the successful start from the default
state. -/
theorem c5_stop_result_witness :
    (stop_contextvault_server startedState (Except.ok ())).2.2
      = Except.ok { running := false, port := none, ollama_detected := false,
                    ollama_port := none, context_entries := 0,
                    last_error := some "Server stopped" }
    ∧ ({ running := false, port := none, ollama_detected := false,
         ollama_port := none, context_entries := 0,
         last_error := some "Server stopped" } : ContextVaultStatus).running
        = false :=
  ⟨rfl, (c5_stop_result startedState (Except.ok ()) _ rfl).1.1⟩

/-- C7: when the path resolves, the binary exists, spawn succeeds and the
child is still running after the settling window, start records the child
handle and stores and returns the status with running = true, port =
some 8000 and last_error cleared (other fields carried over). -/
theorem c7_start_success (env : StartEnv) (s : AppState) (path : String)
    (child : Nat)
    (hres : env.resolvedPath = .ok path) (hex : env.pathExists path = true)
    (hspawn : env.spawnResult = .ok child) (hwait : env.settledExit = .ok none) :
    start_contextvault_server_internal env s
      = ({ server_process := some child
           status := { s.status with
                         running := true
                         port := some 8000
                         last_error := none } },
         .ok { s.status with
                 running := true
                 port := some 8000
                 last_error := none }) := by
  unfold start_contextvault_server_internal
  simp [hres, hex, hspawn, hwait]

/-- C7, witness: the successful start from the default state. -/
theorem c7_start_success_witness :
    (goodEnv.resolvedPath = Except.ok "/app/contextvault-server/contextvault-server"
      ∧ goodEnv.pathExists "/app/contextvault-server/contextvault-server" = true
      ∧ goodEnv.spawnResult = Except.ok 1
      ∧ goodEnv.settledExit = Except.ok none)
    ∧ (start_contextvault_server_internal goodEnv AppState.default).2
        = Except.ok { running := true, port := some 8000,
                      ollama_detected := false, ollama_port := none,
                      context_entries := 0, last_error := none } := by
  refine ⟨⟨rfl, rfl, rfl, rfl⟩, ?_⟩
  rw [c7_start_success goodEnv AppState.default
        "/app/contextvault-server/contextvault-server" 1 rfl rfl rfl rfl]
  rfl

/-- C8: when a child is tracked, stop removes it from tracking whether or
not the kill request succeeds, and the call fails exactly when the kill
request itself could not be issued. -/
theorem c8_stop_untracks (s : AppState) (killResult : Except String Unit)
    (c : Nat) (h : s.server_process = some c) :
    (stop_contextvault_server s killResult).1.server_process = none
    ∧ ((∃ msg, (stop_contextvault_server s killResult).2.2 = .error msg)
        ↔ ∃ msg, killResult = .error msg) := by
  cases hk : killResult with
  | error e =>
    unfold stop_contextvault_server
    simp [h, hk]
  | ok u =>
    unfold stop_contextvault_server
    simp [h, hk]

/-- C8, witness: stop on the started state with a kill request that
succeeds. -/
theorem c8_stop_untracks_witness :
    startedState.server_process = some 1
    ∧ (stop_contextvault_server startedState (Except.ok ())).1.server_process
        = none :=
  ⟨rfl, (c8_stop_untracks startedState (Except.ok ()) 1 rfl).1⟩

/-- A successful response whose decoded JSON body is an object with no
entries array. -/
def noEntriesResp : ForwardResponse :=
  { statusSuccess := true
    statusText := "200 OK"
    jsonBody := .ok (Json.obj [("total", Json.num 3)])
    textBody := .ok "" }

/-- A successful response whose decoded JSON body holds one entry, used to
exercise the forwarding pass-through. -/
def entriesResp : ForwardResponse :=
  { statusSuccess := true
    statusText := "200 OK"
    jsonBody := .ok (Json.obj [("entries", Json.arr [Json.str "note"])])
    textBody := .ok "created" }

/-- C9, counterexample: on a success response whose decoded body is an
object carrying only a total field, get_context_entries returns the empty
list, which is not the decoded response body as-is — that body is an
object, not even an array —, so the decoded payload is not passed through
unchanged. -/
theorem c9_counterexample :
    noEntriesResp.statusSuccess = true
    ∧ noEntriesResp.jsonBody = Except.ok (Json.obj [("total", Json.num 3)])
    ∧ get_context_entries (Except.ok noEntriesResp) = Except.ok []
    ∧ Json.as_array (Json.obj [("total", Json.num 3)]) ≠ some [] := by
  refine ⟨rfl, rfl, rfl, ?_⟩
  simp [Json.as_array]

/-- C9, amended: on a success response, add_context_entry and
delete_context_entry pass the raw response text through to the caller
unchanged; get_context_entries does not return the decoded body as-is but
the entries array extracted from it — unchanged when present, and the
empty list when the body has no entries array. -/
theorem c9_forwarding_passthrough (response : ForwardResponse)
    (body : String) (data : Json) (l : List Json)
    (hs : response.statusSuccess = true) :
    (response.textBody = .ok body →
      add_context_entry (.ok response) = .ok body
      ∧ delete_context_entry (.ok response) = .ok body)
    ∧ (response.jsonBody = .ok data →
        (data.get "entries").bind Json.as_array = some l →
        get_context_entries (.ok response) = .ok l)
    ∧ (response.jsonBody = .ok data →
        (data.get "entries").bind Json.as_array = none →
        get_context_entries (.ok response) = .ok []) := by
  refine ⟨?_, ?_, ?_⟩
  · intro hb
    constructor
    · unfold add_context_entry
      simp [hs, hb]
    · unfold delete_context_entry
      simp [hs, hb]
  · intro hd hl
    unfold get_context_entries
    simp [hs, hd, hl]
  · intro hd hl
    unfold get_context_entries
    simp [hs, hd, hl]

/-- C9, witness: the pass-through on a concrete success response holding
one entry and the raw text created. -/
theorem c9_forwarding_passthrough_witness :
    (entriesResp.statusSuccess = true
      ∧ entriesResp.textBody = Except.ok "created"
      ∧ entriesResp.jsonBody
          = Except.ok (Json.obj [("entries", Json.arr [Json.str "note"])])
      ∧ (((Json.obj [("entries", Json.arr [Json.str "note"])]).get
            "entries").bind Json.as_array = some [Json.str "note"]))
    ∧ add_context_entry (Except.ok entriesResp) = Except.ok "created"
    ∧ get_context_entries (Except.ok entriesResp)
        = Except.ok [Json.str "note"] := by
  refine ⟨⟨rfl, rfl, rfl, rfl⟩, ?_, ?_⟩
  · exact ((c9_forwarding_passthrough entriesResp "created"
      (Json.obj [("entries", Json.arr [Json.str "note"])])
      [Json.str "note"] rfl).1 rfl).1
  · exact (c9_forwarding_passthrough entriesResp "created"
      (Json.obj [("entries", Json.arr [Json.str "note"])])
      [Json.str "note"] rfl).2.1 rfl rfl

/-- C10: the health check never writes the stored state — for every state
and probe it returns the stored record and tracked handle unchanged — so
after a failed probe on a record with running = true and port = some 8000
the stored record still has running = true and port = some 8000, the
downgrade lives only in the returned snapshot, a network call was issued,
and a subsequent health check on the returned state issues a network call
again. -/
theorem c10_health_no_mutation (s : AppState) (probe : Nat → ProbeResult)
    (hrun : s.status.running = true) (hport : s.status.port = some 8000)
    (_hfail : probeFails (probe 8000) = true) :
    (∀ t q, (get_server_status t q).1 = t)
    ∧ (get_server_status s probe).1.status.running = true
    ∧ (get_server_status s probe).1.status.port = some 8000
    ∧ (get_server_status s probe).2.2 = true
    ∧ (get_server_status (get_server_status s probe).1 probe).2.2 = true := by
  have hframe : ∀ t q, (get_server_status t q).1 = t := by
    intro t q
    unfold get_server_status
    repeat' split
    all_goals rfl
  have hcall : ∀ t q, t.status.running = true → t.status.port = some 8000 →
      (get_server_status t q).2.2 = true := by
    intro t q h1 h2
    cases hq : q 8000 with
    | error e =>
      unfold get_server_status
      simp [h1, h2, hq]
    | ok r =>
      by_cases hr : r.statusSuccess = true
      · simp [get_server_status, h1, h2, hq, hr]
      · simp [get_server_status, h1, h2, hq, hr]
  refine ⟨hframe, ?_, ?_, hcall s probe hrun hport, ?_⟩
  · rw [hframe s probe]
    exact hrun
  · rw [hframe s probe]
    exact hport
  · rw [hframe s probe]
    exact hcall s probe hrun hport

/-- C10, witness: two consecutive failed health checks at the state stored
by a successful start. -/
theorem c10_health_no_mutation_witness :
    (startedState.status.running = true
      ∧ startedState.status.port = some 8000
      ∧ probeFails (refusedProbe 8000) = true)
    ∧ (get_server_status startedState refusedProbe).1 = startedState :=
  ⟨⟨rfl, rfl, rfl⟩,
   (c10_health_no_mutation startedState refusedProbe rfl rfl rfl).1
     startedState refusedProbe⟩
